import Mathlib

/-!
Verification of the favourites endpoint of the Food-Recipe-Guide repository
(`api/recipes/favourite.ts`, the Vercel serverless handler) and of the
spec-described key-rotation layer. The handler is embedded shallowly: the
Prisma store is a list of stored `recipeId`s passed in and returned
explicitly, the upstream Spoonacular client is a function parameter so that
success, quota exhaustion and other failures can all be exercised, and the
response object is reified as a status / body / CORS-flag record.
-/

namespace FoodRecipe

/-! ### JavaScript value model

Request bodies are parsed JSON, so a `recipeId` field can hold a number, a
string, `null` or a boolean, or be absent.  `jsTruthy` is JavaScript
truthiness restricted to those shapes, which is what the handler's
`if (!recipeId)` checks test. -/

inductive JsValue where
  | jnull
  | jbool (b : Bool)
  | jnum (n : Int)
  | jstr (s : String)
  deriving DecidableEq, Repr

def jsTruthy : JsValue → Bool
  | .jnull => false
  | .jbool b => b
  | .jnum n => n != 0
  | .jstr s => !s.isEmpty

/-- Truthiness of a possibly-absent body field: a missing field destructures
to `undefined`, which is falsy. -/
def jsTruthyOpt : Option JsValue → Bool
  | none => false
  | some v => jsTruthy v

/-- `JavaScript String.prototype.includes` on character lists: does `pat`
occur contiguously inside `l`? -/
def charListIncl : List Char → List Char → Bool
  | l, [] => (fun _ => true) l
  | [], _ :: _ => false
  | c :: rest, p :: ps => (p :: ps).isPrefixOf (c :: rest) || charListIncl rest (p :: ps)

/-- `s.includes(pat)` from JavaScript. -/
def jsIncludes (s pat : String) : Bool :=
  charListIncl s.data pat.data

/-! ### `Number.prototype.toString` / `parseInt` round trip

The handler converts each stored integer id to a string
(`recipe.recipeId.toString()`) and, on the degraded path, parses it back
with `parseInt(id)`.  We model these with Lean's `toString : Int → String`
and `String.toInt?`, and prove they round-trip, so degraded records carry
exactly the stored ids. -/

/-- Decimal digits of a natural number, most significant first. -/
def natDigits (n : Nat) : List Char :=
  if _h : n < 10 then [Nat.digitChar n]
  else natDigits (n / 10) ++ [Nat.digitChar (n % 10)]
termination_by n
decreasing_by exact Nat.div_lt_self (by omega) (by omega)

theorem toDigitsCore_eq_natDigits (f : Nat) :
    ∀ n acc, n < f → Nat.toDigitsCore 10 f n acc = natDigits n ++ acc := by
  induction f with
  | zero => intro n acc h; omega
  | succ f ih =>
    intro n acc h
    rw [natDigits]
    by_cases h10 : n < 10
    · have hdiv : n / 10 = 0 := Nat.div_eq_of_lt h10
      have hmod : n % 10 = n := Nat.mod_eq_of_lt h10
      simp [Nat.toDigitsCore, hdiv, hmod, h10]
    · have hdiv : n / 10 ≠ 0 := by
        intro hc
        exact h10 (by omega : n < 10)
      have hlt : n / 10 < f := by
        have : n / 10 < n := Nat.div_lt_self (by omega) (by omega)
        omega
      simp only [Nat.toDigitsCore, hdiv, if_false, h10, dif_neg, not_false_iff]
      rw [ih (n / 10) (Nat.digitChar (n % 10) :: acc) hlt]
      simp

theorem digitChar_isDigit (d : Nat) (h : d < 10) : (Nat.digitChar d).isDigit = true := by
  interval_cases d <;> decide

theorem digitChar_val (d : Nat) (h : d < 10) : (Nat.digitChar d).toNat - Char.toNat '0' = d := by
  interval_cases d <;> decide

theorem natDigits_ne_nil (n : Nat) : natDigits n ≠ [] := by
  rw [natDigits]
  by_cases h : n < 10 <;> simp [h]

theorem natDigits_all_digit (n : Nat) : ∀ c ∈ natDigits n, c.isDigit = true := by
  induction n using Nat.strong_induction_on with
  | _ n ih =>
    rw [natDigits]
    by_cases h : n < 10
    · simp only [h, dif_pos]
      intro c hc
      rw [List.mem_singleton] at hc
      subst hc
      exact digitChar_isDigit n h
    · simp only [h, dif_neg, not_false_iff]
      intro c hc
      rw [List.mem_append] at hc
      rcases hc with hc | hc
      · exact ih (n / 10) (Nat.div_lt_self (by omega) (by omega)) c hc
      · rw [List.mem_singleton] at hc
        subst hc
        exact digitChar_isDigit (n % 10) (Nat.mod_lt _ (by omega))

theorem natDigits_foldl (n : Nat) :
    ∀ a, (natDigits n).foldl (fun m c => m * 10 + (c.toNat - Char.toNat '0')) a
      = a * 10 ^ (natDigits n).length + n := by
  induction n using Nat.strong_induction_on with
  | _ n ih =>
    intro a
    rw [natDigits]
    by_cases h : n < 10
    · simp only [h, dif_pos, List.foldl_cons, List.foldl_nil, List.length_singleton]
      rw [digitChar_val n h]
      ring
    · simp only [h, dif_neg, not_false_iff, List.foldl_append, List.foldl_cons,
        List.foldl_nil, List.length_append, List.length_singleton]
      rw [ih (n / 10) (Nat.div_lt_self (by omega) (by omega)) a]
      rw [digitChar_val (n % 10) (Nat.mod_lt _ (by omega))]
      have hdm := Nat.div_add_mod n 10
      ring_nf
      omega

theorem natRepr_eq (n : Nat) : Nat.repr n = ⟨natDigits n⟩ := by
  rw [Nat.repr, Nat.toDigits, toDigitsCore_eq_natDigits (n + 1) n [] (Nat.lt_succ_self n)]
  simp [List.asString]

theorem mk_natDigits_ne_empty (n : Nat) : (⟨natDigits n⟩ : String) ≠ "" := by
  intro h
  exact natDigits_ne_nil n (congrArg String.data h)

theorem toNat?_natRepr (n : Nat) : String.toNat? (Nat.repr n) = some n := by
  rw [natRepr_eq]
  have hNat : (⟨natDigits n⟩ : String).isNat = true := by
    rw [String.isNat]
    simp only [Bool.and_eq_true, Bool.not_eq_true']
    constructor
    · have : ¬((⟨natDigits n⟩ : String).isEmpty = true) := by
        rw [String.isEmpty_iff]
        exact mk_natDigits_ne_empty n
      simpa using this
    · rw [String.all_eq, List.all_eq_true]
      exact natDigits_all_digit n
  rw [String.toNat?, if_pos hNat, String.foldl_eq]
  show some (List.foldl _ 0 (natDigits n)) = some n
  rw [natDigits_foldl n 0]
  simp

theorem headD_natDigits_ne_dash (n : Nat) : (natDigits n).headD default ≠ '-' := by
  cases hd : natDigits n with
  | nil => exact absurd hd (natDigits_ne_nil n)
  | cons c cs =>
    have hc : c.isDigit = true := natDigits_all_digit n c (hd ▸ List.mem_cons_self c cs)
    simp only [List.headD_cons]
    intro hEq
    rw [hEq] at hc
    exact absurd hc (by decide)

theorem toInt?_toString_int (n : Int) : String.toInt? (toString n) = some n := by
  cases n with
  | ofNat m =>
    have h1 : toString (Int.ofNat m) = Nat.repr m := rfl
    have hn : String.toNat? (⟨natDigits m⟩ : String) = some m := by
      rw [← natRepr_eq]
      exact toNat?_natRepr m
    rw [h1, natRepr_eq, String.toInt?]
    have hget : (⟨natDigits m⟩ : String).get 0 ≠ '-' := by
      have hv := String.get_of_valid [] (natDigits m)
      simp only [List.nil_append, String.utf8Len_nil, String.Pos.mk_zero] at hv
      rw [hv]
      exact headD_natDigits_ne_dash m
    rw [if_neg hget, hn]
    rfl
  | negSucc m =>
    have h1 : toString (Int.negSucc m) = "-" ++ Nat.repr (m + 1) := rfl
    have hdata : ("-" ++ Nat.repr (m + 1)) = (⟨'-' :: natDigits (m + 1)⟩ : String) := by
      apply String.ext
      rw [String.data_append, natRepr_eq]
      rfl
    rw [h1, hdata, String.toInt?]
    have hget : (⟨'-' :: natDigits (m + 1)⟩ : String).get 0 = '-' := by
      have hv := String.get_of_valid [] ('-' :: natDigits (m + 1))
      simp only [List.nil_append, String.utf8Len_nil, String.Pos.mk_zero] at hv
      rw [hv]
      rfl
    rw [if_pos hget]
    have hvf := String.validFor_toSubstring (⟨'-' :: natDigits (m + 1)⟩ : String)
    have hdrop := hvf.drop 1
    simp only [List.take_succ_cons, List.take_zero, List.drop_succ_cons, List.drop_zero,
      List.nil_append] at hdrop
    have hisNat : ((⟨'-' :: natDigits (m + 1)⟩ : String).toSubstring.drop 1).isNat = true := by
      rw [Substring.isNat, hdrop.all, List.all_eq_true]
      exact natDigits_all_digit (m + 1)
    have hfold := hdrop.foldl (fun m c => m * 10 + (c.toNat - Char.toNat '0')) 0
    rw [Substring.toNat?, if_pos hisNat, hfold, natDigits_foldl (m + 1) 0]
    simp only [Nat.zero_mul, Nat.zero_add]
    show some (-(Int.ofNat (m + 1))) = some (Int.negSucc m)
    rw [Int.negSucc_eq]
    simp

/-- `parseInt` from JavaScript, on strings of the shape produced by
`Number.prototype.toString` for integers (the only shape the handler feeds
it); `0` stands in for the unreachable `NaN` result. -/
def parseIntJS (s : String) : Int :=
  (String.toInt? s).getD 0

theorem parseIntJS_toString (n : Int) : parseIntJS (toString n) = n := by
  rw [parseIntJS, toInt?_toString_int]
  rfl

/-! ### Data model and collaborators

The Prisma store (`favouriteRecipes` table) is its list of stored
`recipeId`s (schema type `Int`), in insertion order.  `create` appends and
surfaces Prisma's unique-constraint failure as a thrown error whose message
contains "Unique constraint"; `findMany` lists; `delete` removes.  The
upstream client `getFavouriteRecipesByIDs` (lib/recipe-api.ts) is passed to
the handler as a function so every outcome can be examined. -/

/-- A thrown JavaScript `Error` as the handler inspects it: an optional
numeric `code` (Spoonacular attaches `402` on quota exhaustion) and a
`message` string. -/
structure JsError where
  code : Option Int
  message : String
  deriving DecidableEq, Repr

/-- Modelled from the spec: lib/recipe-api.ts is not among the provided
sources.  §4.4/§6: the bulk-detail lookup returns, on success, one full
detail record per requested ID, re-keyed by ID into request order. -/
structure ResolvedFavourite where
  id : Int
  detail : String
  deriving DecidableEq, Repr

/-- Successful payload of `getFavouriteRecipesByIDs`: a `results` array. -/
structure FavouritesPayload where
  results : List ResolvedFavourite
  deriving DecidableEq, Repr

/-- Modelled from the spec: lib/recipe-api.ts `getFavouriteRecipesByIDs` on
its success path — "returns one ResolvedFavourite per ID, in the order
requested (upstream response order is re-keyed by ID to guarantee this)".
`details` stands for the upstream detail body for a given ID string. -/
def getFavouriteRecipesByIDs_success (details : String → String) (ids : List String) :
    FavouritesPayload :=
  { results := ids.map fun s => { id := parseIntJS s, detail := details s } }

/-- One element of the degraded GET response built at
api/recipes/favourite.ts lines 83–88: `_apiUnavailable` in the JSON is the
`apiUnavailable` field here. -/
structure DegradedRecord where
  id : Int
  title : String
  image : Option String
  apiUnavailable : Bool
  deriving DecidableEq, Repr

/-- `recipeIds.map(id => ({id: parseInt(id), title: ..., image: null,
_apiUnavailable: true}))`, for one `id`. -/
def degradedFor (s : String) : DegradedRecord :=
  { id := parseIntJS s
  , title := "Recipe #" ++ s ++ " (Details unavailable - API limit reached)"
  , image := none
  , apiUnavailable := true }

/-- The `_message` field of the degraded response (line 89 of the handler). -/
def apiLimitMessage : String :=
  "Your favourites are saved, but recipe details are temporarily unavailable due to API daily limit. They will appear once the limit resets."

/-- `prisma.favouriteRecipes.create({data: {recipeId}})`: appends, or throws
Prisma's unique-constraint error when the id is already stored. -/
def prismaCreate (store : List Int) (rid : Int) : Except JsError (List Int × Int) :=
  if store.contains rid then
    .error { code := none
           , message := "Unique constraint failed on the fields: (`recipeId`)" }
  else
    .ok (store ++ [rid], rid)

/-- `create` when handed the raw JSON body value: Prisma rejects non-numeric
values for an `Int` column with a thrown validation error. -/
def prismaCreateJs (store : List Int) (v : JsValue) : Except JsError (List Int × Int) :=
  match v with
  | .jnum n => prismaCreate store n
  | _ => .error { code := none, message := "Invalid value provided for field recipeId" }

/-- `prisma.favouriteRecipes.findMany()`. -/
def prismaFindMany (store : List Int) : List Int := store

/-- `prisma.favouriteRecipes.delete({where: {recipeId}})` on the raw JSON
body value: removes the matching record, or throws Prisma's P2025
record-not-found error when no record matches the unique `where`. -/
def prismaDeleteJs (store : List Int) (v : JsValue) : Except JsError (List Int) :=
  match v with
  | .jnum n =>
    if store.contains n then .ok (store.filter (· != n))
    else .error { code := none
                , message := "An operation failed because it depends on one or more records that were required but not found. Record to delete does not exist." }
  | _ => .error { code := none, message := "Invalid value provided for field recipeId" }

/-! ### The handler (api/recipes/favourite.ts) -/

/-- Lines 74–76: `apiError?.code === 402 || apiError?.message?.includes("points limit")
|| apiError?.message?.includes("daily limit")`. -/
def isApiLimitError (e : JsError) : Bool :=
  e.code == some 402 || jsIncludes e.message "points limit" || jsIncludes e.message "daily limit"

/-- The JSON bodies the handler can produce. -/
inductive ResponseBody where
  /-- `response.end()` with no JSON body. -/
  | empty
  /-- `{error: s}`. -/
  | errorObj (error : String)
  /-- `{error, message}` — the 500 body of the outer catch. -/
  | errorDetail (error : String) (message : String)
  /-- The created favourite record returned by POST. -/
  | createdRecord (recipeId : Int)
  /-- `{results: []}` for an empty favourites store. -/
  | resultsEmpty
  /-- The upstream payload passed through on GET success. -/
  | favourites (p : FavouritesPayload)
  /-- `{results: [...degraded records...], _message}`. -/
  | degraded (results : List DegradedRecord) (message : String)
  deriving DecidableEq, Repr

structure HttpResponse where
  status : Nat
  body : ResponseBody
  /-- Whether `setCorsHeaders` ran on this response. -/
  cors : Bool
  deriving DecidableEq, Repr

/-- The try-block of the handler (lines 38–116).  Returns the thrown error
or the response together with the resulting store, plus the number of calls
made to `getFavouriteRecipesByIDs`. -/
def handlerTry (method : String) (recipeId? : Option JsValue) (store : List Int)
    (upstream : List String → Except JsError FavouritesPayload) :
    Except JsError (HttpResponse × List Int) × Nat :=
  if method = "POST" then
    if !jsTruthyOpt recipeId? then
      (.ok ({ status := 400, body := .errorObj "Recipe ID is required", cors := true }, store), 0)
    else
      match prismaCreateJs store (recipeId?.getD .jnull) with
      | .ok (store2, rid) =>
        (.ok ({ status := 201, body := .createdRecord rid, cors := true }, store2), 0)
      | .error e => (.error e, 0)
  else if method = "GET" then
    let recipes := prismaFindMany store
    let recipeIds := recipes.map fun rid => toString rid
    if recipeIds.length = 0 then
      (.ok ({ status := 200, body := .resultsEmpty, cors := true }, store), 0)
    else
      match upstream recipeIds with
      | .ok favourites =>
        (.ok ({ status := 200, body := .favourites favourites, cors := true }, store), 1)
      | .error apiError =>
        if isApiLimitError apiError then
          (.ok ({ status := 200
                , body := .degraded (recipeIds.map degradedFor) apiLimitMessage
                , cors := true }, store), 1)
        else
          (.error apiError, 1)
  else if method = "DELETE" then
    if !jsTruthyOpt recipeId? then
      (.ok ({ status := 400, body := .errorObj "Recipe ID is required", cors := true }, store), 0)
    else
      match prismaDeleteJs store (recipeId?.getD .jnull) with
      | .ok store2 => (.ok ({ status := 204, body := .empty, cors := true }, store2), 0)
      | .error e => (.error e, 0)
  else
    (.ok ({ status := 405, body := .errorObj "Method not allowed", cors := true }, store), 0)

/-- The whole handler: OPTIONS preflight first (lines 31–34), then the
try-block, then the catch-block (lines 117–147) which maps a thrown error
whose message contains "Unique constraint" to 409 and anything else to 500. -/
def handler (method : String) (recipeId? : Option JsValue) (store : List Int)
    (upstream : List String → Except JsError FavouritesPayload) :
    HttpResponse × List Int × Nat :=
  if method = "OPTIONS" then
    ({ status := 200, body := .empty, cors := true }, store, 0)
  else
    match handlerTry method recipeId? store upstream with
    | (.ok (resp, store2), k) => (resp, store2, k)
    | (.error e, k) =>
      if jsIncludes e.message "Unique constraint" then
        ({ status := 409, body := .errorObj "Recipe is already in favorites", cors := true },
          store, k)
      else
        ({ status := 500, body := .errorDetail "Oops, something went wrong" e.message, cors := true },
          store, k)

/-! ### Key Rotator -/

/-- Modelled from the spec: lib/api-key-tracker.ts (the Key Rotator) is not
among the provided sources.  §3/§4.1: an ordered credential list whose only
mutable state is the set of exhaustion flags, reset only on restart. -/
structure KeyRotator where
  credentials : List String
  exhausted : List String
  deriving DecidableEq, Repr

inductive RotatorError where
  | noCredentialsAvailable
  deriving DecidableEq, Repr

/-- Modelled from the spec: "Iterates credentials in fixed priority order,
skipping any marked exhausted; returns the first usable one", failing with
`NoCredentialsAvailable` when every credential is exhausted. -/
def selectCredential (kr : KeyRotator) : Except RotatorError String :=
  match kr.credentials.find? (fun c => !kr.exhausted.contains c) with
  | some c => .ok c
  | none => .error .noCredentialsAvailable

/-- Modelled from the spec: `markExhausted(credential)` flags a credential,
idempotently; the flag is monotonic within the process lifetime. -/
def markExhausted (kr : KeyRotator) (c : String) : KeyRotator :=
  if kr.exhausted.contains c then kr
  else { kr with exhausted := c :: kr.exhausted }

/-- Every evolution the rotator state can undergo after some point:
a sequence of further `markExhausted` calls, the only mutator. -/
def applyMarks (kr : KeyRotator) : List String → KeyRotator
  | [] => kr
  | c :: cs => applyMarks (markExhausted kr c) cs

theorem contains_markExhausted (kr : KeyRotator) (c d : String)
    (h : kr.exhausted.contains c = true) :
    (markExhausted kr d).exhausted.contains c = true := by
  rw [markExhausted]
  split
  · exact h
  · simp only [List.contains_cons, h, Bool.or_true]

theorem contains_markExhausted_self (kr : KeyRotator) (c : String) :
    (markExhausted kr c).exhausted.contains c = true := by
  rw [markExhausted]
  split
  · assumption
  · simp [List.contains_cons]

theorem contains_applyMarks (ops : List String) :
    ∀ kr : KeyRotator, ∀ c : String, kr.exhausted.contains c = true →
      (applyMarks kr ops).exhausted.contains c = true := by
  induction ops with
  | nil => intro kr c h; exact h
  | cons d ds ih =>
    intro kr c h
    exact ih (markExhausted kr d) c (contains_markExhausted kr c d h)

/-! ### Shared helper lemmas -/

theorem map_degradedFor_id (store : List Int) :
    ((store.map fun rid => toString rid).map degradedFor).map DegradedRecord.id = store := by
  simp only [List.map_map, Function.comp_def, degradedFor, parseIntJS_toString]
  exact List.map_id store

theorem map_resolved_id (details : String → String) (store : List Int) :
    (getFavouriteRecipesByIDs_success details (store.map fun rid => toString rid)).results.map
        ResolvedFavourite.id = store := by
  simp only [getFavouriteRecipesByIDs_success, List.map_map, Function.comp_def,
    parseIntJS_toString]
  exact List.map_id store

/-! ### C1 -/

/-- C1: when the upstream client fails with a quota error (code 402 or a
quota-marker message) for a non-empty favourites store, GET returns 200
with exactly one degraded record per stored ID in store order, each
carrying the stored ID and `apiUnavailable = true`, plus the notice that
favourites exist but details are unavailable until the quota resets. -/
theorem getFavourites_quota_degraded (store : List Int) (e : JsError)
    (hne : store ≠ []) (hq : isApiLimitError e = true) :
    handler "GET" none store (fun _ => .error e) =
      ({ status := 200
       , body := .degraded ((store.map fun rid => toString rid).map degradedFor) apiLimitMessage
       , cors := true }, store, 1) ∧
    ((store.map fun rid => toString rid).map degradedFor).map DegradedRecord.id = store ∧
    ∀ r ∈ (store.map fun rid => toString rid).map degradedFor, r.apiUnavailable = true := by
  refine ⟨?_, map_degradedFor_id store, ?_⟩
  · cases store with
    | nil => exact absurd rfl hne
    | cons a as => simp [handler, handlerTry, prismaFindMany, hq]
  · intro r hr
    rw [List.mem_map] at hr
    obtain ⟨s, _, rfl⟩ := hr
    rfl

theorem getFavourites_quota_degraded_witness :
    handler "GET" none [101] (fun _ => .error ⟨some 402, "Payment Required"⟩) =
      ({ status := 200
       , body := .degraded ((([101] : List Int).map fun rid => toString rid).map degradedFor)
           apiLimitMessage
       , cors := true }, [101], 1) :=
  (getFavourites_quota_degraded [101] ⟨some 402, "Payment Required"⟩ (by decide)
    (by decide)).1

/-! ### C2 -/

/-- C2: for every non-empty favourites store, GET resolution returns exactly
one element per stored ID, in store order — on the full-detail success path
(upstream client modelled from the spec, which re-keys the response by ID)
and on the degraded quota path alike. -/
theorem getFavourites_length_order (store : List Int) (details : String → String)
    (e : JsError) (hne : store ≠ []) (hq : isApiLimitError e = true) :
    (∃ p : FavouritesPayload,
        (handler "GET" none store
            (fun ids => .ok (getFavouriteRecipesByIDs_success details ids))).1
          = { status := 200, body := .favourites p, cors := true } ∧
        p.results.length = store.length ∧
        p.results.map ResolvedFavourite.id = store) ∧
    (∃ rs : List DegradedRecord,
        (handler "GET" none store (fun _ => .error e)).1
          = { status := 200, body := .degraded rs apiLimitMessage, cors := true } ∧
        rs.length = store.length ∧
        rs.map DegradedRecord.id = store) := by
  constructor
  · refine ⟨getFavouriteRecipesByIDs_success details (store.map fun rid => toString rid),
      ?_, ?_, map_resolved_id details store⟩
    · cases store with
      | nil => exact absurd rfl hne
      | cons a as => simp [handler, handlerTry, prismaFindMany]
    · simp [getFavouriteRecipesByIDs_success]
  · refine ⟨(store.map fun rid => toString rid).map degradedFor, ?_, by simp,
      map_degradedFor_id store⟩
    cases store with
    | nil => exact absurd rfl hne
    | cons a as => simp [handler, handlerTry, prismaFindMany, hq]

theorem getFavourites_length_order_witness :
    (∃ p : FavouritesPayload,
        (handler "GET" none [101, 102]
            (fun ids => .ok (getFavouriteRecipesByIDs_success (fun _ => "detail") ids))).1
          = { status := 200, body := .favourites p, cors := true } ∧
        p.results.length = ([101, 102] : List Int).length ∧
        p.results.map ResolvedFavourite.id = [101, 102]) ∧
    (∃ rs : List DegradedRecord,
        (handler "GET" none [101, 102]
            (fun _ => .error ⟨none, "Your daily points limit of 150 has been reached."⟩)).1
          = { status := 200, body := .degraded rs apiLimitMessage, cors := true } ∧
        rs.length = ([101, 102] : List Int).length ∧
        rs.map DegradedRecord.id = [101, 102]) :=
  getFavourites_length_order [101, 102] (fun _ => "detail")
    ⟨none, "Your daily points limit of 150 has been reached."⟩ (by decide) (by decide)

/-! ### C3 -/

/-- C3: with an empty favourites store, GET returns 200 with `{results: []}`
and performs zero calls to `getFavouriteRecipesByIDs`, for every possible
upstream client and request body. -/
theorem getFavourites_empty_store (recipeId? : Option JsValue)
    (upstream : List String → Except JsError FavouritesPayload) :
    handler "GET" recipeId? [] upstream =
      ({ status := 200, body := .resultsEmpty, cors := true }, [], 0) := rfl

/-! ### C4 -/

/-- C4 counterexample: an upstream error that is not a quota error but whose
message happens to contain "Unique constraint" is caught by the outer catch
and surfaces as 409 — a 4xx, not the 5xx the claim requires. -/
theorem getFavourites_nonquota_counterexample :
    isApiLimitError ⟨none, "Unique constraint failed"⟩ = false ∧
    (handler "GET" none [5]
        (fun _ => .error ⟨none, "Unique constraint failed"⟩)).1.status = 409 ∧
    ¬ 500 ≤ (handler "GET" none [5]
        (fun _ => .error ⟨none, "Unique constraint failed"⟩)).1.status := by decide

/-- C4 amended: a non-quota upstream error on GET produces no degraded
fallback; it propagates to the outer catch, surfacing as 500 — except that
an error whose message contains "Unique constraint" surfaces as the 409
already reserved for duplicate favourites.  In no case is a degraded 200
returned. -/
theorem getFavourites_nonquota_propagates (store : List Int) (e : JsError)
    (hne : store ≠ []) (hq : isApiLimitError e = false) :
    (handler "GET" none store (fun _ => .error e)).1
      = (if jsIncludes e.message "Unique constraint" then
           { status := 409, body := .errorObj "Recipe is already in favorites", cors := true }
         else
           { status := 500, body := .errorDetail "Oops, something went wrong" e.message
           , cors := true }) ∧
    ∀ rs msg, (handler "GET" none store (fun _ => .error e)).1.body ≠ .degraded rs msg := by
  have hmain : (handler "GET" none store (fun _ => .error e)).1
      = (if jsIncludes e.message "Unique constraint" then
           { status := 409, body := .errorObj "Recipe is already in favorites", cors := true }
         else
           { status := 500, body := .errorDetail "Oops, something went wrong" e.message
           , cors := true }) := by
    cases store with
    | nil => exact absurd rfl hne
    | cons a as =>
      by_cases hu : jsIncludes e.message "Unique constraint"
      · simp [handler, handlerTry, prismaFindMany, hq, hu]
      · simp [handler, handlerTry, prismaFindMany, hq, hu]
  refine ⟨hmain, ?_⟩
  intro rs msg
  rw [hmain]
  by_cases hu : jsIncludes e.message "Unique constraint" <;> simp [hu]

theorem getFavourites_nonquota_propagates_witness :
    (handler "GET" none [5] (fun _ => .error ⟨none, "connect ECONNREFUSED"⟩)).1
      = (if jsIncludes "connect ECONNREFUSED" "Unique constraint" then
           { status := 409, body := .errorObj "Recipe is already in favorites", cors := true }
         else
           { status := 500
           , body := .errorDetail "Oops, something went wrong" "connect ECONNREFUSED"
           , cors := true }) :=
  (getFavourites_nonquota_propagates [5] ⟨none, "connect ECONNREFUSED"⟩ (by decide)
    (by decide)).1

/-! ### C5 -/

/-- C5 counterexample: `recipeId: 0` is present in the body and not yet
favourited (empty store), yet POST answers 400, not 201 — the presence
check is JavaScript truthiness. -/
theorem post_present_zero_counterexample :
    (handler "POST" (some (.jnum 0)) [] (fun _ => .ok ⟨[]⟩)).1.status = 400 ∧
    (handler "POST" (some (.jnum 0)) [] (fun _ => .ok ⟨[]⟩)).1.status ≠ 201 := by decide

/-- C5 amended: POST with a truthy numeric `recipeId` that is not yet
favourited returns 201 with the created record; a missing (or falsy, e.g.
`0`) `recipeId` returns 400; an already-favourited `recipeId` trips the
store's unique constraint, which the handler maps to 409 with message
"Recipe is already in favorites". -/
theorem post_favourites_behaviour (n : Int) (store : List Int)
    (upstream : List String → Except JsError FavouritesPayload) :
    handler "POST" (some (.jnum n)) store upstream
      = (if n = 0 then
           ({ status := 400, body := .errorObj "Recipe ID is required", cors := true }, store, 0)
         else if store.contains n then
           ({ status := 409, body := .errorObj "Recipe is already in favorites", cors := true },
             store, 0)
         else
           ({ status := 201, body := .createdRecord n, cors := true }, store ++ [n], 0)) ∧
    handler "POST" none store upstream
      = ({ status := 400, body := .errorObj "Recipe ID is required", cors := true }, store, 0) := by
  constructor
  · by_cases h0 : n = 0
    · subst h0
      simp [handler, handlerTry, jsTruthyOpt, jsTruthy]
    · by_cases hc : n ∈ store
      · have hmsg : jsIncludes "Unique constraint failed on the fields: (`recipeId`)"
            "Unique constraint" = true := by decide
        simp [handler, handlerTry, jsTruthyOpt, jsTruthy, h0, hc, prismaCreateJs,
          prismaCreate, hmsg]
      · simp [handler, handlerTry, jsTruthyOpt, jsTruthy, h0, hc, prismaCreateJs, prismaCreate]
  · simp [handler, handlerTry, jsTruthyOpt]

/-! ### C6 -/

/-- C6 counterexample: a DELETE request carrying `recipeId: 0` — even for a
store in which `0` is favourited — answers 400, not 204; and a DELETE
carrying the nonzero `recipeId: 7` with `7` not favourited answers 500
(the store's record-not-found throw reaches the outer catch), not 204. -/
theorem delete_zero_counterexample :
    ((handler "DELETE" (some (.jnum 0)) [0] (fun _ => .ok ⟨[]⟩)).1.status = 400 ∧
      (handler "DELETE" (some (.jnum 0)) [0] (fun _ => .ok ⟨[]⟩)).1.status ≠ 204) ∧
    ((handler "DELETE" (some (.jnum 7)) [5] (fun _ => .ok ⟨[]⟩)).1.status = 500 ∧
      (handler "DELETE" (some (.jnum 7)) [5] (fun _ => .ok ⟨[]⟩)).1.status ≠ 204) := by decide

/-- C6 amended: DELETE with a truthy (nonzero) numeric `recipeId` that is
currently favourited deletes it and returns 204 with an empty body; a
missing (or falsy, e.g. `0`) `recipeId` returns 400; a nonzero `recipeId`
that is not currently favourited trips the store's record-not-found throw,
which the outer catch surfaces as 500. -/
theorem delete_favourites_behaviour (n : Int) (store : List Int)
    (upstream : List String → Except JsError FavouritesPayload) :
    handler "DELETE" (some (.jnum n)) store upstream
      = (if n = 0 then
           ({ status := 400, body := .errorObj "Recipe ID is required", cors := true }, store, 0)
         else if store.contains n then
           ({ status := 204, body := .empty, cors := true }, store.filter (· != n), 0)
         else
           ({ status := 500
            , body := .errorDetail "Oops, something went wrong"
                "An operation failed because it depends on one or more records that were required but not found. Record to delete does not exist."
            , cors := true }, store, 0)) ∧
    handler "DELETE" none store upstream
      = ({ status := 400, body := .errorObj "Recipe ID is required", cors := true }, store, 0) := by
  constructor
  · by_cases h0 : n = 0
    · subst h0
      simp [handler, handlerTry, jsTruthyOpt, jsTruthy]
    · by_cases hc : n ∈ store
      · simp [handler, handlerTry, jsTruthyOpt, jsTruthy, h0, hc, prismaDeleteJs]
      · have hmsg : jsIncludes
            "An operation failed because it depends on one or more records that were required but not found. Record to delete does not exist."
            "Unique constraint" = false := by decide
        simp [handler, handlerTry, jsTruthyOpt, jsTruthy, h0, hc, prismaDeleteJs, hmsg]
  · simp [handler, handlerTry, jsTruthyOpt]

/-! ### C7 -/

/-- C7: GET is read-only on the favourites store — whatever the request body
and whatever the upstream client does (succeed, fail with quota, fail
otherwise), the stored IDs after the handler equal the stored IDs before. -/
theorem getFavourites_readonly (recipeId? : Option JsValue) (store : List Int)
    (upstream : List String → Except JsError FavouritesPayload) :
    (handler "GET" recipeId? store upstream).2.1 = store := by
  cases store with
  | nil => rfl
  | cons a as =>
    cases hres : upstream (toString a :: as.map fun rid => toString rid) with
    | ok p => simp [handler, handlerTry, prismaFindMany, hres]
    | error e =>
      by_cases hq : isApiLimitError e
      · simp [handler, handlerTry, prismaFindMany, hres, hq]
      · by_cases hu : jsIncludes e.message "Unique constraint" <;>
          simp [handler, handlerTry, prismaFindMany, hres, hq, hu]

/-! ### C8 -/

/-- C8: once `markExhausted(c)` has run, no later state reachable by further
`markExhausted` calls (the only mutator) ever has `selectCredential` return
`c`; and when every credential is exhausted, `selectCredential` fails with
`NoCredentialsAvailable`. -/
theorem keyRotator_exhausted_spec (kr : KeyRotator) (c : String) (ops : List String) :
    selectCredential (applyMarks (markExhausted kr c) ops) ≠ .ok c ∧
    ((∀ d ∈ kr.credentials, kr.exhausted.contains d = true) →
      selectCredential kr = .error .noCredentialsAvailable) := by
  constructor
  · intro hsel
    have hcontains : (applyMarks (markExhausted kr c) ops).exhausted.contains c = true :=
      contains_applyMarks ops (markExhausted kr c) c (contains_markExhausted_self kr c)
    rw [selectCredential] at hsel
    cases hfind : (applyMarks (markExhausted kr c) ops).credentials.find?
        (fun d => !(applyMarks (markExhausted kr c) ops).exhausted.contains d) with
    | none => rw [hfind] at hsel; exact Except.noConfusion hsel
    | some d =>
      rw [hfind] at hsel
      have hd : d = c := by
        have := Except.ok.inj hsel
        exact this
      subst hd
      have hpred := List.find?_some hfind
      rw [hcontains] at hpred
      exact Bool.noConfusion hpred
  · intro hall
    rw [selectCredential]
    have hnone : kr.credentials.find? (fun d => !kr.exhausted.contains d) = none := by
      rw [List.find?_eq_none]
      intro d hd
      rw [hall d hd]
      decide
    rw [hnone]

theorem keyRotator_exhausted_spec_witness :
    selectCredential (applyMarks (markExhausted ⟨["k1", "k2"], []⟩ "k1") ["k2"]) ≠ .ok "k1" ∧
    selectCredential (⟨["k1"], ["k1"]⟩ : KeyRotator) = .error .noCredentialsAvailable :=
  ⟨(keyRotator_exhausted_spec ⟨["k1", "k2"], []⟩ "k1" ["k2"]).1,
   (keyRotator_exhausted_spec ⟨["k1"], ["k1"]⟩ "k1" []).2 (by decide)⟩

/-! ### C9 -/

/-- C9: any method other than GET, POST, DELETE and OPTIONS falls through
every branch of the handler to a 405 with body `{error: "Method not
allowed"}`, on which the CORS headers have still been set. -/
theorem method_not_allowed (method : String) (recipeId? : Option JsValue) (store : List Int)
    (upstream : List String → Except JsError FavouritesPayload)
    (h1 : method ≠ "GET") (h2 : method ≠ "POST") (h3 : method ≠ "DELETE")
    (h4 : method ≠ "OPTIONS") :
    handler method recipeId? store upstream =
      ({ status := 405, body := .errorObj "Method not allowed", cors := true }, store, 0) ∧
    (handler method recipeId? store upstream).1.cors = true := by
  have hmain : handler method recipeId? store upstream =
      ({ status := 405, body := .errorObj "Method not allowed", cors := true }, store, 0) := by
    simp [handler, handlerTry, h1, h2, h3, h4]
  exact ⟨hmain, by rw [hmain]⟩

theorem method_not_allowed_witness :
    handler "PUT" (some (.jnum 7)) [7] (fun _ => .ok ⟨[]⟩) =
      ({ status := 405, body := .errorObj "Method not allowed", cors := true }, [7], 0) :=
  (method_not_allowed "PUT" (some (.jnum 7)) [7] (fun _ => .ok ⟨[]⟩) (by decide) (by decide)
    (by decide) (by decide)).1

/-! ### C10 -/

/-- C10: the `recipeId` presence check is JavaScript falsiness: any falsy
body value — `0`, `""`, `null`, `false` — is rejected exactly like a
missing field, with 400 "Recipe ID is required", no store change and no
store call, on POST and DELETE alike; hence recipe ID `0` can never be
favourited or unfavourited through this endpoint. -/
theorem falsy_recipeId_rejected (v : JsValue) (hv : jsTruthy v = false) (store : List Int)
    (upstream : List String → Except JsError FavouritesPayload) :
    handler "POST" (some v) store upstream
      = ({ status := 400, body := .errorObj "Recipe ID is required", cors := true }, store, 0) ∧
    handler "DELETE" (some v) store upstream
      = ({ status := 400, body := .errorObj "Recipe ID is required", cors := true }, store, 0) := by
  constructor <;> simp [handler, handlerTry, jsTruthyOpt, hv]

theorem falsy_recipeId_rejected_witness :
    (handler "POST" (some (.jnum 0)) [3] (fun _ => .ok ⟨[]⟩)
        = ({ status := 400, body := .errorObj "Recipe ID is required", cors := true }, [3], 0) ∧
      handler "DELETE" (some (.jnum 0)) [3] (fun _ => .ok ⟨[]⟩)
        = ({ status := 400, body := .errorObj "Recipe ID is required", cors := true }, [3], 0)) ∧
    (handler "POST" (some (.jstr "")) [3] (fun _ => .ok ⟨[]⟩)
        = ({ status := 400, body := .errorObj "Recipe ID is required", cors := true }, [3], 0) ∧
      handler "DELETE" (some (.jstr "")) [3] (fun _ => .ok ⟨[]⟩)
        = ({ status := 400, body := .errorObj "Recipe ID is required", cors := true }, [3], 0)) ∧
    (handler "POST" (some .jnull) [3] (fun _ => .ok ⟨[]⟩)
        = ({ status := 400, body := .errorObj "Recipe ID is required", cors := true }, [3], 0) ∧
      handler "DELETE" (some .jnull) [3] (fun _ => .ok ⟨[]⟩)
        = ({ status := 400, body := .errorObj "Recipe ID is required", cors := true }, [3], 0)) ∧
    (handler "POST" (some (.jbool false)) [3] (fun _ => .ok ⟨[]⟩)
        = ({ status := 400, body := .errorObj "Recipe ID is required", cors := true }, [3], 0) ∧
      handler "DELETE" (some (.jbool false)) [3] (fun _ => .ok ⟨[]⟩)
        = ({ status := 400, body := .errorObj "Recipe ID is required", cors := true }, [3], 0)) :=
  ⟨falsy_recipeId_rejected (.jnum 0) (by decide) [3] (fun _ => .ok ⟨[]⟩),
   falsy_recipeId_rejected (.jstr "") (by decide) [3] (fun _ => .ok ⟨[]⟩),
   falsy_recipeId_rejected .jnull (by decide) [3] (fun _ => .ok ⟨[]⟩),
   falsy_recipeId_rejected (.jbool false) (by decide) [3] (fun _ => .ok ⟨[]⟩)⟩

end FoodRecipe
